import Mathlib

/-!
Verification of the m4b-maker job runner (src/main.rs).

Shallow embedding of `M4bApp::generate_m4b` and the snapshot read in
`M4bApp::update`. Every source of nondeterminism of the real run (temp-file
I/O results, spawn result, the lines delivered by the child process on each
stream, the wait result, and the outcome of each mutex-lock acquisition) is
resolved by an explicit environment record `Env`; each thread of the run is
embedded as a function from the environment to the sequence of observable
events it performs, in program order. The shared status string ("Status
Sink", field `ffmpeg_output`) is recovered from an event sequence by
`applyEvents`.
-/

set_option autoImplicit false

namespace M4b

/-- The single-quote character, written via its code point. -/
def sq : String := String.singleton (Char.ofNat 39)

/-- A mutation of the status sink: `replace` models `*log = s` (full
replacement under the lock), `append` models `log.push_str(s)`. -/
inductive SinkOp where
  | replace (s : String)
  | append (s : String)
deriving Repr, DecidableEq

/-- The program point performing a sink mutation, one tag per mutation site
of `generate_m4b`. -/
inductive Src where
  | reset
  | warnEmpty
  | errCreate
  | errWrite
  | errKeep
  | errSpawn
  | streamOut
  | streamErr
  | status
  | echo
deriving Repr, DecidableEq

/-- Observable events of one thread of a run, in program order. A
`sink src op applied` event records a lock-guarded mutation attempt: `applied`
is `true` when the lock acquisition succeeded and the mutation took effect,
`false` when `self.ffmpeg_output.lock()` returned `Err` and the update was
skipped. -/
inductive Event where
  | sink (src : Src) (op : SinkOp) (applied : Bool)
  | repaint
  | spawnProcess (args : List String)
  | wait
deriving Repr, DecidableEq

/-- Environment resolving the nondeterminism of one run: results of the
temp-file operations, of the spawn, the `io::Result` lines delivered by each
stream reader (`none` is an `Err` line, skipped by the source), the wait
result (`none` = `wait` returned `Err`; `some none` = exited without a code,
e.g. killed by a signal; `some (some c)` = exit code `c`), and one lock
oracle per thread, indexed by that thread's lock-acquisition attempts. -/
structure Env where
  tmpCreate : Except String Unit
  writeRes : Nat → Except String Unit
  keepRes : Except String String
  spawnRes : Except String Unit
  stdoutLines : List (Option String)
  stderrLines : List (Option String)
  waitRes : Option (Option Int)
  uiLock : Nat → Bool
  drvLock : Nat → Bool
  errLock : Nat → Bool

/-- One manifest line as written by `writeln!(tmp_file, "file '{}'", file)`,
without the terminating newline: the path wrapped verbatim in single
quotes. -/
def manifestLine (f : String) : String := "file " ++ sq ++ f ++ sq

/-- The argument vector built at lines 84-112 of the source: the fixed
flags, then the title metadata directive when `title.trim()` is non-empty,
then the artist metadata directive when `author.trim()` is non-empty, then
the output path. -/
def buildArgs (concatPath title author outputPath : String) : List String :=
  let base := ["-y", "-f", "concat", "-safe", "0", "-i", concatPath,
               "-c:a", "aac", "-b:a", "128k", "-movflags", "+faststart",
               "-progress", "-"]
  let a1 := if title.trim.isEmpty then base
            else base ++ ["-metadata", "title=" ++ title]
  let a2 := if author.trim.isEmpty then a1
            else a1 ++ ["-metadata", "artist=" ++ author]
  a2 ++ [outputPath]

/-- Exit code computed at lines 159-162: `status.code().unwrap_or(-1)` on
`Ok`, `-1` on `Err`. -/
def exitCodeOfWait : Option (Option Int) → Int
  | some (some c) => c
  | some none => -1
  | none => -1

/-- The terminal status line appended at lines 164-170. -/
def statusText (c : Int) : String :=
  if c = 0 then "✅ FFmpeg finished successfully.\n"
  else "❌ FFmpeg failed with code " ++ toString c ++ "\n"

/-- Events of one stream-reader loop (`for line in reader.lines()`): each
`Ok` line is appended with a trailing newline under the lock (attempt
numbered by `k`), followed by a repaint request; `Err` lines are skipped
entirely. -/
def readerEvents (src : Src) (lock : Nat → Bool) : Nat → List (Option String) → List Event
  | _, [] => []
  | k, none :: rest => readerEvents src lock k rest
  | k, some line :: rest =>
      Event.sink src (SinkOp.append (line ++ "\n")) (lock k) ::
      Event.repaint :: readerEvents src lock (k + 1) rest

/-- Number of `Ok` lines in a stream, i.e. the number of lock-acquisition
attempts made by a reader loop over it. -/
def okCount (ls : List (Option String)) : Nat := (ls.filterMap id).length

/-- The background (driver) thread spawned at line 83: build the argument
vector, spawn `ffmpeg`; on spawn failure replace the sink with the launch
error and stop. Otherwise the stderr reader runs on a further thread (its
events are the second component), stdout is drained on this thread, then the
driver waits and appends the terminal status line and a final repaint. -/
def driverEvents (env : Env) (concatPath title author outputPath : String) :
    List Event × Option (List Event) :=
  let args := buildArgs concatPath title author outputPath
  match env.spawnRes with
  | Except.error e =>
      ([Event.spawnProcess args,
        Event.sink Src.errSpawn
          (SinkOp.replace ("❌ Failed to launch ffmpeg: " ++ e)) (env.drvLock 0)],
       none)
  | Except.ok _ =>
      (Event.spawnProcess args ::
         readerEvents Src.streamOut env.drvLock 0 env.stdoutLines ++
         [Event.wait,
          Event.sink Src.status
            (SinkOp.append (statusText (exitCodeOfWait env.waitRes)))
            (env.drvLock (okCount env.stdoutLines)),
          Event.repaint],
       some (readerEvents Src.streamErr env.errLock 0 env.stderrLines))

/-- The write loop at lines 55-64, recursing over the remaining files with
`k` the index of the next `writeln!` result. Returns the manifest lines
written so far, the `input_list` text accumulated from the successful
writes, and the error message of the first failing write, if any. -/
def writeLoop (wr : Nat → Except String Unit) : Nat → List String → List String × String × Option String
  | _, [] => ([], "", none)
  | k, f :: rest =>
      match wr k with
      | Except.error e => ([], "", some e)
      | Except.ok _ =>
          let r := writeLoop wr (k + 1) rest
          (manifestLine f :: r.1, manifestLine f ++ "\n" ++ r.2.1, r.2.2)

/-- Result of one call to `generate_m4b`: the events of the calling (UI)
thread, the events of the driver thread when one was spawned, the events of
the stderr-reader thread when one was spawned, and the lines written to the
manifest temp file when one was created. -/
structure RunResult where
  ui : List Event
  driver : Option (List Event)
  child : Option (List Event)
  manifest : Option (List String)
deriving Repr

/-- `M4bApp::generate_m4b` (lines 30-179): reset the sink, repaint; bail out
with a warning on an empty file list; create the temp file, write one
`file '<path>'` line per input, persist it; spawn the driver thread; append
the echoed input list and repaint. Every failure replaces the sink with its
error message and returns. -/
def generateM4b (env : Env) (files : List String) (title author outputPath : String) : RunResult :=
  let e0 : List Event :=
    [Event.sink Src.reset (SinkOp.replace "🔄 Generating m4b...\n") (env.uiLock 0),
     Event.repaint]
  if files.isEmpty then
    { ui := e0 ++ [Event.sink Src.warnEmpty
         (SinkOp.replace "⚠ No input files selected.") (env.uiLock 1)],
      driver := none, child := none, manifest := none }
  else
    match env.tmpCreate with
    | Except.error e =>
        { ui := e0 ++ [Event.sink Src.errCreate
             (SinkOp.replace ("❌ Failed to create temp file: " ++ e)) (env.uiLock 1)],
          driver := none, child := none, manifest := none }
    | Except.ok _ =>
        let w := writeLoop env.writeRes 0 files
        match w.2.2 with
        | some e =>
            { ui := e0 ++ [Event.sink Src.errWrite
                 (SinkOp.replace ("❌ Failed to write to temp file: " ++ e)) (env.uiLock 1)],
              driver := none, child := none, manifest := some w.1 }
        | none =>
            match env.keepRes with
            | Except.error e =>
                { ui := e0 ++ [Event.sink Src.errKeep
                     (SinkOp.replace ("❌ Failed to keep temp file: " ++ e)) (env.uiLock 1)],
                  driver := none, child := none, manifest := some w.1 }
            | Except.ok path =>
                let d := driverEvents env path title author outputPath
                { ui := e0 ++
                    [Event.sink Src.echo
                       (SinkOp.append ("🔍 FFmpeg input list:\n" ++ w.2.1)) (env.uiLock 1),
                     Event.repaint],
                  driver := some d.1, child := d.2, manifest := some w.1 }

/-- Effect of one applied sink mutation on the log contents. -/
def applyOp (acc : String) : SinkOp → String
  | SinkOp.replace s => s
  | SinkOp.append s => acc ++ s

/-- Contents of the status sink after a sequence of events: applied
mutations take effect in order, skipped mutations and non-sink events leave
the log unchanged. -/
def applyEvents (acc : String) : List Event → String
  | [] => acc
  | Event.sink _ op true :: rest => applyEvents (applyOp acc op) rest
  | Event.sink _ _ false :: rest => applyEvents acc rest
  | Event.repaint :: rest => applyEvents acc rest
  | Event.spawnProcess _ :: rest => applyEvents acc rest
  | Event.wait :: rest => applyEvents acc rest

/-- All events of a run, the UI thread first, then the driver thread, then
the stderr-reader thread (used for counting, not for cross-thread order). -/
def allEvents (r : RunResult) : List Event :=
  r.ui ++ r.driver.getD [] ++ r.child.getD []

/-- Is this event an applied full replacement of the sink? -/
def isReplaceApplied : Event → Bool
  | Event.sink _ (SinkOp.replace _) true => true
  | _ => false

/-- Is this event a sink mutation attempt at the terminal-status program
point (lines 164-170)? -/
def isStatusEvent : Event → Bool
  | Event.sink Src.status _ _ => true
  | _ => false

/-- The snapshot read performed by `M4bApp::update` each frame (lines
228-239): under the lock, clone the current log text; on lock failure read
nothing. The log itself is returned unchanged. -/
def snapshotOp (lockOk : Bool) (st : String) : Option String × String :=
  if lockOk then (some st, st) else (none, st)

/-- A concrete environment where every operation succeeds, the streams are
empty and the child exits with code 1. -/
def envOk : Env :=
  { tmpCreate := Except.ok ()
    writeRes := fun _ => Except.ok ()
    keepRes := Except.ok "/tmp/concat.txt"
    spawnRes := Except.ok ()
    stdoutLines := []
    stderrLines := []
    waitRes := some (some 1)
    uiLock := fun _ => true
    drvLock := fun _ => true
    errLock := fun _ => true }

/-- A concrete environment where the spawn of the external tool fails. -/
def envSpawnFail : Env :=
  { envOk with spawnRes := Except.error "No such file or directory (os error 2)" }

/-- The given environment with its three lock oracles replaced. -/
def withLocks (env : Env) (u d s : Nat → Bool) : Env :=
  { env with uiLock := u, drvLock := d, errLock := s }

/-- A trace with every lock-acquisition outcome forced to success, i.e. the
control skeleton of the thread, independent of the lock oracle. -/
def skeleton (tr : List Event) : List Event :=
  tr.map fun e =>
    match e with
    | Event.sink src op _ => Event.sink src op true
    | x => x

theorem buildArgs_eq (cp t a o : String) :
    buildArgs cp t a o =
      ["-y", "-f", "concat", "-safe", "0", "-i", cp, "-c:a", "aac",
       "-b:a", "128k", "-movflags", "+faststart", "-progress", "-"]
      ++ (if t.trim = "" then [] else ["-metadata", "title=" ++ t])
      ++ (if a.trim = "" then [] else ["-metadata", "artist=" ++ a])
      ++ [o] := by
  unfold buildArgs
  by_cases ht : t.trim = "" <;> by_cases ha : a.trim = "" <;>
    simp [ht, ha, String.isEmpty_iff]

/-- C1: for every run, the argument list handed to the external tool is the
fixed flag list, the title metadata directive exactly when the title is
non-empty after trimming (with the untrimmed value), then the artist
metadata directive exactly when the author is non-empty after trimming
(with the untrimmed value), and the output path as the final argument. -/
theorem args_passed_exact (env : Env) (cp t a o : String) :
    ((driverEvents env cp t a o).1).head? =
      some (Event.spawnProcess
        (["-y", "-f", "concat", "-safe", "0", "-i", cp, "-c:a", "aac",
          "-b:a", "128k", "-movflags", "+faststart", "-progress", "-"]
         ++ (if t.trim = "" then [] else ["-metadata", "title=" ++ t])
         ++ (if a.trim = "" then [] else ["-metadata", "artist=" ++ a])
         ++ [o])) := by
  rw [← buildArgs_eq]
  cases h : env.spawnRes <;> simp [driverEvents, h]

theorem writeLoop_ok (wr : Nat → Except String Unit) (files : List String) (k : Nat)
    (h : ∀ j, j < files.length → wr (k + j) = Except.ok ()) :
    writeLoop wr k files =
      (files.map manifestLine,
       files.foldr (fun f acc => manifestLine f ++ "\n" ++ acc) "",
       none) := by
  induction files generalizing k with
  | nil => rfl
  | cons f rest ih =>
      have h0 : wr k = Except.ok () := by simpa using h 0 (by simp)
      have hrest : ∀ j, j < rest.length → wr (k + 1 + j) = Except.ok () := by
        intro j hj
        have := h (j + 1) (by simpa using Nat.succ_lt_succ hj)
        rwa [show k + (j + 1) = k + 1 + j by omega] at this
      simp [writeLoop, h0, ih (k + 1) hrest]

/-- C2: for every non-empty ordered input sequence whose temp file is
created and whose writes all succeed, the manifest has exactly one line per
input path, and line i is the i-th path wrapped verbatim in single quotes,
in input order. -/
theorem manifest_lines_exact (env : Env) (files : List String) (t a o : String)
    (hne : files ≠ [])
    (hc : env.tmpCreate = Except.ok ())
    (hw : ∀ j, j < files.length → env.writeRes j = Except.ok ()) :
    ∃ ls, (generateM4b env files t a o).manifest = some ls ∧
      ls.length = files.length ∧
      ∀ (i : Nat) (f : String), files[i]? = some f →
        ls[i]? = some ("file " ++ sq ++ f ++ sq) := by
  obtain ⟨f0, rest, rfl⟩ := List.exists_cons_of_ne_nil hne
  have hw0 : ∀ j, j < (f0 :: rest).length → env.writeRes (0 + j) = Except.ok () := by
    intro j hj; simpa using hw j hj
  refine ⟨(f0 :: rest).map manifestLine, ?_, by simp, ?_⟩
  · cases hk : env.keepRes <;>
      simp [generateM4b, hc, hk, writeLoop_ok env.writeRes (f0 :: rest) 0 hw0]
  · intro i f hf
    rw [List.getElem?_map, hf]
    rfl

/-- Witness for C2: two input files, all writes succeeding. -/
theorem manifest_lines_exact_witness :
    (["a.mp3", "b.mp3"] : List String) ≠ [] ∧
    envOk.tmpCreate = Except.ok () ∧
    (∀ j, j < (["a.mp3", "b.mp3"] : List String).length →
      envOk.writeRes j = Except.ok ()) ∧
    (∃ ls, (generateM4b envOk ["a.mp3", "b.mp3"] "T" "A" "out.m4b").manifest = some ls ∧
      ls.length = (["a.mp3", "b.mp3"] : List String).length ∧
      ∀ (i : Nat) (f : String), (["a.mp3", "b.mp3"] : List String)[i]? = some f →
        ls[i]? = some ("file " ++ sq ++ f ++ sq)) :=
  ⟨by decide, rfl, fun _ _ => rfl,
   manifest_lines_exact envOk ["a.mp3", "b.mp3"] "T" "A" "out.m4b"
     (by decide) rfl (fun _ _ => rfl)⟩

/-- C4: a run started with an empty input list spawns no thread, starts no
child process, writes no manifest, and leaves the sink holding only the
no-input-files warning. -/
theorem empty_input_guard (env : Env) (files : List String) (t a o : String)
    (hf : files = []) (hl : ∀ k, env.uiLock k = true) :
    (generateM4b env files t a o).driver = none ∧
    (generateM4b env files t a o).child = none ∧
    (generateM4b env files t a o).manifest = none ∧
    (∀ ev ∈ (generateM4b env files t a o).ui, ∀ args, ev ≠ Event.spawnProcess args) ∧
    applyEvents "" (generateM4b env files t a o).ui = "⚠ No input files selected." := by
  subst hf
  refine ⟨by simp [generateM4b], by simp [generateM4b], by simp [generateM4b], ?_, ?_⟩
  · intro ev hev args
    simp [generateM4b] at hev
    rcases hev with h | h | h <;> subst h <;> simp
  · simp [generateM4b, hl 0, hl 1, applyEvents, applyOp]

/-- Witness for C4 at the all-success environment with no files. -/
theorem empty_input_guard_witness :
    ([] : List String) = [] ∧
    (∀ k, envOk.uiLock k = true) ∧
    ((generateM4b envOk [] "T" "A" "out.m4b").driver = none ∧
     (generateM4b envOk [] "T" "A" "out.m4b").child = none ∧
     (generateM4b envOk [] "T" "A" "out.m4b").manifest = none ∧
     (∀ ev ∈ (generateM4b envOk [] "T" "A" "out.m4b").ui,
        ∀ args, ev ≠ Event.spawnProcess args) ∧
     applyEvents "" (generateM4b envOk [] "T" "A" "out.m4b").ui =
       "⚠ No input files selected.") :=
  ⟨rfl, fun _ => rfl,
   empty_input_guard envOk [] "T" "A" "out.m4b" rfl (fun _ => rfl)⟩

theorem readerEvents_filter_status (src : Src) (lock : Nat → Bool)
    (hsrc : src ≠ Src.status) :
    ∀ (k : Nat) (ls : List (Option String)),
      (readerEvents src lock k ls).filter isStatusEvent = [] := by
  have hfalse : ∀ op ap, isStatusEvent (Event.sink src op ap) = false := by
    intro op ap
    cases src <;> simp_all [isStatusEvent]
  intro k ls
  induction ls generalizing k with
  | nil => rfl
  | cons hd rest ih =>
      cases hd with
      | none => simpa [readerEvents] using ih k
      | some line =>
          simp only [readerEvents, List.filter_cons, hfalse]
          simpa [isStatusEvent] using ih (k + 1)

/-- C3: after a successful spawn the driver drains stdout, waits for the
child, and appends exactly one terminal status line: the success marker
when the exit code is 0, otherwise the failure marker carrying the numeric
code; the code is the one reported by wait, and -1 whenever wait fails or
reports no code. -/
theorem terminal_status_exact (env : Env) (cp t a o : String)
    (hs : env.spawnRes = Except.ok ()) :
    ∃ c applied,
      (driverEvents env cp t a o).1 =
        Event.spawnProcess (buildArgs cp t a o) ::
          readerEvents Src.streamOut env.drvLock 0 env.stdoutLines ++
          [Event.wait,
           Event.sink Src.status (SinkOp.append (statusText c)) applied,
           Event.repaint] ∧
      (driverEvents env cp t a o).1.filter isStatusEvent =
        [Event.sink Src.status (SinkOp.append (statusText c)) applied] ∧
      (∀ code, env.waitRes = some (some code) → c = code) ∧
      ((env.waitRes = some none ∨ env.waitRes = none) → c = -1) ∧
      (c = 0 → statusText c = "✅ FFmpeg finished successfully.\n") ∧
      (c ≠ 0 → statusText c = "❌ FFmpeg failed with code " ++ toString c ++ "\n") := by
  refine ⟨exitCodeOfWait env.waitRes, env.drvLock (okCount env.stdoutLines),
    ?_, ?_, ?_, ?_, ?_, ?_⟩
  · simp [driverEvents, hs]
  · simp [driverEvents, hs, List.filter_cons, List.filter_append,
      readerEvents_filter_status Src.streamOut env.drvLock (by decide),
      isStatusEvent]
  · intro code hcode; simp [exitCodeOfWait, hcode]
  · rintro (h | h) <;> simp [exitCodeOfWait, h]
  · intro h; simp [statusText, h]
  · intro h; simp [statusText, h]

/-- Witness for C3: successful spawn, empty stdout, the child exiting with
code 1. -/
theorem terminal_status_exact_witness :
    envOk.spawnRes = Except.ok () ∧
    (∃ c applied,
      (driverEvents envOk "/tmp/concat.txt" "T" "A" "out.m4b").1 =
        Event.spawnProcess (buildArgs "/tmp/concat.txt" "T" "A" "out.m4b") ::
          readerEvents Src.streamOut envOk.drvLock 0 envOk.stdoutLines ++
          [Event.wait,
           Event.sink Src.status (SinkOp.append (statusText c)) applied,
           Event.repaint] ∧
      (driverEvents envOk "/tmp/concat.txt" "T" "A" "out.m4b").1.filter isStatusEvent =
        [Event.sink Src.status (SinkOp.append (statusText c)) applied] ∧
      (∀ code, envOk.waitRes = some (some code) → c = code) ∧
      ((envOk.waitRes = some none ∨ envOk.waitRes = none) → c = -1) ∧
      (c = 0 → statusText c = "✅ FFmpeg finished successfully.\n") ∧
      (c ≠ 0 → statusText c = "❌ FFmpeg failed with code " ++ toString c ++ "\n")) :=
  ⟨rfl, terminal_status_exact envOk "/tmp/concat.txt" "T" "A" "out.m4b" rfl⟩

/-- Counterexample to C5 as stated: in a run whose input list is non-empty
and whose manifest is built successfully but whose spawn fails, the sink is
fully replaced twice (the initial reset and the launch-error report), not
exactly once. -/
theorem reset_once_counterexample :
    (allEvents (generateM4b envSpawnFail ["a.mp3"] "" "" "out.m4b")).countP
        isReplaceApplied ≠ 1 := by
  have h2 : (allEvents (generateM4b envSpawnFail ["a.mp3"] "" "" "out.m4b")).countP
      isReplaceApplied = 2 := rfl
  rw [h2]
  decide

theorem readerEvents_countP_replace (src : Src) (lock : Nat → Bool) :
    ∀ (k : Nat) (ls : List (Option String)),
      (readerEvents src lock k ls).countP isReplaceApplied = 0 := by
  intro k ls
  induction ls generalizing k with
  | nil => rfl
  | cons hd rest ih =>
      cases hd with
      | none => simpa [readerEvents] using ih k
      | some line =>
          simp [readerEvents, List.countP_cons, isReplaceApplied, ih (k + 1)]

/-- C5 amended: the sink is fully replaced exactly once per run that reaches
a successful spawn — by the initial reset, which happens at the start of the
call, before the input list is validated; every later mutation in such a run
is an append. On the bail-out paths (empty input, temp-file failure, spawn
failure) the error report is a second full replacement. -/
theorem reset_once_amended (env : Env) (files : List String) (t a o : String)
    (hne : files ≠ [])
    (hc : env.tmpCreate = Except.ok ())
    (hw : ∀ j, j < files.length → env.writeRes j = Except.ok ())
    (p : String) (hk : env.keepRes = Except.ok p)
    (hs : env.spawnRes = Except.ok ())
    (hui : env.uiLock 0 = true) :
    (allEvents (generateM4b env files t a o)).countP isReplaceApplied = 1 ∧
    (generateM4b env files t a o).ui.head? =
      some (Event.sink Src.reset (SinkOp.replace "🔄 Generating m4b...\n") true) := by
  obtain ⟨f0, rest, rfl⟩ := List.exists_cons_of_ne_nil hne
  have hw0 : ∀ j, j < (f0 :: rest).length → env.writeRes (0 + j) = Except.ok () := by
    intro j hj; simpa using hw j hj
  constructor
  · simp [allEvents, generateM4b, hc, hk, hs, hui, driverEvents,
      writeLoop_ok env.writeRes (f0 :: rest) 0 hw0,
      List.countP_append, List.countP_cons, isReplaceApplied,
      readerEvents_countP_replace]
  · simp [generateM4b, hc, hk, hui,
      writeLoop_ok env.writeRes (f0 :: rest) 0 hw0]

/-- Witness for the amended C5: one input file, everything succeeding. -/
theorem reset_once_amended_witness :
    (["a.mp3"] : List String) ≠ [] ∧
    envOk.tmpCreate = Except.ok () ∧
    (∀ j, j < (["a.mp3"] : List String).length → envOk.writeRes j = Except.ok ()) ∧
    envOk.keepRes = Except.ok "/tmp/concat.txt" ∧
    envOk.spawnRes = Except.ok () ∧
    envOk.uiLock 0 = true ∧
    ((allEvents (generateM4b envOk ["a.mp3"] "T" "A" "out.m4b")).countP
        isReplaceApplied = 1 ∧
     (generateM4b envOk ["a.mp3"] "T" "A" "out.m4b").ui.head? =
       some (Event.sink Src.reset (SinkOp.replace "🔄 Generating m4b...\n") true)) :=
  ⟨by decide, rfl, fun _ _ => rfl, rfl, rfl, rfl,
   reset_once_amended envOk ["a.mp3"] "T" "A" "out.m4b" (by decide) rfl
     (fun _ _ => rfl) "/tmp/concat.txt" rfl rfl rfl⟩

/-- C10: in every run whose manifest is created, written and persisted, the
UI-thread call itself, before returning, appends the echo block: the header
line and then, verbatim and in input order, the same `file '<path>'` lines
the manifest holds. -/
theorem echo_block (env : Env) (files : List String) (t a o : String)
    (hne : files ≠ [])
    (hc : env.tmpCreate = Except.ok ())
    (hw : ∀ j, j < files.length → env.writeRes j = Except.ok ())
    (p : String) (hk : env.keepRes = Except.ok p) :
    (generateM4b env files t a o).ui =
      [Event.sink Src.reset (SinkOp.replace "🔄 Generating m4b...\n") (env.uiLock 0),
       Event.repaint,
       Event.sink Src.echo
         (SinkOp.append ("🔍 FFmpeg input list:\n" ++
            files.foldr (fun f acc => manifestLine f ++ "\n" ++ acc) ""))
         (env.uiLock 1),
       Event.repaint] ∧
    (generateM4b env files t a o).manifest = some (files.map manifestLine) := by
  obtain ⟨f0, rest, rfl⟩ := List.exists_cons_of_ne_nil hne
  have hw0 : ∀ j, j < (f0 :: rest).length → env.writeRes (0 + j) = Except.ok () := by
    intro j hj; simpa using hw j hj
  constructor <;>
    simp [generateM4b, hc, hk, writeLoop_ok env.writeRes (f0 :: rest) 0 hw0]

/-- Witness for C10: two input files, all temp-file operations
succeeding. -/
theorem echo_block_witness :
    (["a.mp3", "b.mp3"] : List String) ≠ [] ∧
    envOk.tmpCreate = Except.ok () ∧
    (∀ j, j < (["a.mp3", "b.mp3"] : List String).length →
      envOk.writeRes j = Except.ok ()) ∧
    envOk.keepRes = Except.ok "/tmp/concat.txt" ∧
    ((generateM4b envOk ["a.mp3", "b.mp3"] "T" "A" "out.m4b").ui =
      [Event.sink Src.reset (SinkOp.replace "🔄 Generating m4b...\n") (envOk.uiLock 0),
       Event.repaint,
       Event.sink Src.echo
         (SinkOp.append ("🔍 FFmpeg input list:\n" ++
            (["a.mp3", "b.mp3"] : List String).foldr
              (fun f acc => manifestLine f ++ "\n" ++ acc) ""))
         (envOk.uiLock 1),
       Event.repaint] ∧
     (generateM4b envOk ["a.mp3", "b.mp3"] "T" "A" "out.m4b").manifest =
       some ((["a.mp3", "b.mp3"] : List String).map manifestLine)) :=
  ⟨by decide, rfl, fun _ _ => rfl, rfl,
   echo_block envOk ["a.mp3", "b.mp3"] "T" "A" "out.m4b" (by decide) rfl
     (fun _ _ => rfl) "/tmp/concat.txt" rfl⟩

theorem skeleton_readerEvents (src : Src) (lock lock2 : Nat → Bool) :
    ∀ (k k2 : Nat) (ls : List (Option String)),
      skeleton (readerEvents src lock k ls) = skeleton (readerEvents src lock2 k2 ls) := by
  intro k k2 ls
  induction ls generalizing k k2 with
  | nil => rfl
  | cons hd rest ih =>
      cases hd with
      | none => simpa [readerEvents] using ih k k2
      | some line =>
          have ih2 := ih (k + 1) (k2 + 1)
          simp only [skeleton] at ih2 ⊢
          simp [readerEvents, ih2]

theorem skeleton_driverEvents (env : Env) (u d s : Nat → Bool) (cp t a o : String) :
    skeleton (driverEvents (withLocks env u d s) cp t a o).1 =
      skeleton (driverEvents env cp t a o).1 ∧
    ((driverEvents (withLocks env u d s) cp t a o).2).map skeleton =
      ((driverEvents env cp t a o).2).map skeleton := by
  cases hs : env.spawnRes with
  | error e => constructor <;> simp [driverEvents, withLocks, hs, skeleton]
  | ok _ =>
      constructor
      · have hr := skeleton_readerEvents Src.streamOut d env.drvLock 0 0 env.stdoutLines
        simp only [driverEvents, withLocks, hs]
        simp only [skeleton, List.map_cons, List.map_append] at hr ⊢
        rw [hr]
      · have hr := skeleton_readerEvents Src.streamErr s env.errLock 0 0 env.stderrLines
        simp [driverEvents, withLocks, hs, hr]

/-- C7: lock-acquisition outcomes never change the course of a run. The
whole run result — every thread's events up to the applied-or-skipped bit of
each mutation, and the manifest — is invariant under any change of the three
lock oracles, and a mutation whose lock acquisition failed leaves the log
exactly as it was, with execution continuing past it. -/
theorem lock_failures_harmless :
    (∀ (env : Env) (u d s : Nat → Bool) (files : List String) (t a o : String),
      skeleton (generateM4b (withLocks env u d s) files t a o).ui =
        skeleton (generateM4b env files t a o).ui ∧
      ((generateM4b (withLocks env u d s) files t a o).driver).map skeleton =
        ((generateM4b env files t a o).driver).map skeleton ∧
      ((generateM4b (withLocks env u d s) files t a o).child).map skeleton =
        ((generateM4b env files t a o).child).map skeleton ∧
      (generateM4b (withLocks env u d s) files t a o).manifest =
        (generateM4b env files t a o).manifest) ∧
    (∀ (acc : String) (src : Src) (op : SinkOp) (rest : List Event),
      applyEvents acc (Event.sink src op false :: rest) = applyEvents acc rest) := by
  constructor
  · intro env u d s files t a o
    cases files with
    | nil => refine ⟨?_, ?_, ?_, ?_⟩ <;> simp [generateM4b, withLocks, skeleton]
    | cons f0 rest =>
        cases hc : env.tmpCreate with
        | error e =>
            refine ⟨?_, ?_, ?_, ?_⟩ <;> simp [generateM4b, withLocks, hc, skeleton]
        | ok _ =>
            cases hw : (writeLoop env.writeRes 0 (f0 :: rest)).2.2 with
            | some e =>
                refine ⟨?_, ?_, ?_, ?_⟩ <;>
                  simp [generateM4b, withLocks, hc, hw, skeleton]
            | none =>
                cases hk : env.keepRes with
                | error e =>
                    refine ⟨?_, ?_, ?_, ?_⟩ <;>
                      simp [generateM4b, withLocks, hc, hw, hk, skeleton]
                | ok path =>
                    obtain ⟨hd1, hd2⟩ := skeleton_driverEvents env u d s path t a o
                    have hc2 : (withLocks env u d s).tmpCreate = env.tmpCreate := rfl
                    have hw2 : (withLocks env u d s).writeRes = env.writeRes := rfl
                    have hk2 : (withLocks env u d s).keepRes = env.keepRes := rfl
                    have hu2 : ∀ k, (withLocks env u d s).uiLock k = u k := fun _ => rfl
                    simp only [skeleton] at hd1 hd2
                    refine ⟨?_, ?_, ?_, ?_⟩ <;>
                      simp [generateM4b, hc2, hw2, hk2, hu2, hc, hw, hk,
                        skeleton, hd1, hd2]
  · intro acc src op rest; rfl

/-- C9: the frame-time snapshot of the status log is idempotent: two
consecutive snapshots with no intervening mutation return the same string,
and neither snapshot changes the log. -/
theorem snapshot_idempotent (st : String) :
    (snapshotOp true st).2 = st ∧
    (snapshotOp true (snapshotOp true st).2).2 = st ∧
    (snapshotOp true st).1 = (snapshotOp true (snapshotOp true st).2).1 := by
  simp [snapshotOp]

/-- C6: when spawning the external tool fails, the driver thread reports the
launch error to the sink and ends: no stderr-reader thread is started, no
stdout line is read, the process is never awaited, and no terminal status
line is appended. -/
theorem spawn_failure_no_readers (env : Env) (cp t a o : String) (e : String)
    (hs : env.spawnRes = Except.error e) :
    (driverEvents env cp t a o).1 =
      [Event.spawnProcess (buildArgs cp t a o),
       Event.sink Src.errSpawn
         (SinkOp.replace ("❌ Failed to launch ffmpeg: " ++ e)) (env.drvLock 0)] ∧
    (driverEvents env cp t a o).2 = none ∧
    Event.wait ∉ (driverEvents env cp t a o).1 ∧
    (driverEvents env cp t a o).1.filter isStatusEvent = [] := by
  refine ⟨by simp [driverEvents, hs], by simp [driverEvents, hs], ?_, ?_⟩
  · simp [driverEvents, hs]
  · simp [driverEvents, hs, List.filter, isStatusEvent]

/-- Witness for C6 at a concrete spawn-failure environment. -/
theorem spawn_failure_no_readers_witness :
    envSpawnFail.spawnRes = Except.error "No such file or directory (os error 2)" ∧
    ((driverEvents envSpawnFail "/tmp/concat.txt" "T" "A" "out.m4b").1 =
      [Event.spawnProcess (buildArgs "/tmp/concat.txt" "T" "A" "out.m4b"),
       Event.sink Src.errSpawn
         (SinkOp.replace ("❌ Failed to launch ffmpeg: " ++
            "No such file or directory (os error 2)")) (envSpawnFail.drvLock 0)] ∧
     (driverEvents envSpawnFail "/tmp/concat.txt" "T" "A" "out.m4b").2 = none ∧
     Event.wait ∉ (driverEvents envSpawnFail "/tmp/concat.txt" "T" "A" "out.m4b").1 ∧
     (driverEvents envSpawnFail "/tmp/concat.txt" "T" "A" "out.m4b").1.filter isStatusEvent = []) :=
  ⟨rfl, spawn_failure_no_readers envSpawnFail "/tmp/concat.txt" "T" "A" "out.m4b"
    "No such file or directory (os error 2)" rfl⟩

end M4b
